import Mathlib

/-!
Verification of the BICPV telemetry ingestion and alerting pipeline.

This file gives a shallow embedding of the pipeline's core operations:

* the MQTT payload decoder and dual-store writer
  (`handle_payload` in src/ingestor/main.py),
* the anomaly sweep engine (`check_for_anomalies`, `check_inactive_sensors`
  and `cleanup_old_alerts` in src/alert_monitor.py),
* the on-demand alert services (`get_sensor_errors`,
  `get_anomalies_by_threshold` and `get_alert_history` in
  src/backend/app/services/alerts_service.py).

Modelling conventions: UTC instants are whole seconds since the epoch
(`Int`); SQL `NOW()` and Python `datetime.utcnow()` become an explicit `now`
parameter; sensor values are exact rationals (`ℚ`), nullable ones
`Option ℚ`; database tables are lists of rows; a SQL `SELECT` is a
filter/sort/take over such a list; external library functions (ISO-8601
timestamp parsing, clock rendering) are function parameters.  Human-readable
`description`/`message` strings built by the code are not modelled: no claim
depends on them.
-/

namespace BICPV

/-- One row of the `measurements` table, as inserted by the ingestor and
read by the sweep engine and the alert services. -/
structure MeasurementRow where
  facade_id : String
  device_id : String
  facade_type : String
  sensor_name : String
  value : Option ℚ
  ts : Int
deriving DecidableEq

/-- A per-sensor acceptable range, one entry of the `ALERT_THRESHOLDS`
dictionaries. -/
structure ThresholdRule where
  min : ℚ
  max : ℚ
deriving DecidableEq

/-- The `ALERT_THRESHOLDS` dictionary of src/alert_monitor.py (lines 19-33).
Note `Presion_Alta` has max 500 here. -/
def ALERT_THRESHOLDS_monitor : List (String × ThresholdRule) :=
  [("Temperatura_Ambiente", ⟨-10, 50⟩),
   ("Irradiancia", ⟨0, 1500⟩),
   ("Velocidad_Viento", ⟨0, 30⟩),
   ("Humedad", ⟨0, 100⟩),
   ("T_ValvulaExpansion", ⟨-50, 50⟩),
   ("T_EntCompresor", ⟨-50, 80⟩),
   ("T_SalCompresor", ⟨-50, 100⟩),
   ("T_SalCondensador", ⟨-50, 80⟩),
   ("T_Entrada_Agua", ⟨-10, 60⟩),
   ("T_Salida_Agua", ⟨-10, 60⟩),
   ("Presion_Alta", ⟨0, 500⟩),
   ("Presion_Baja", ⟨0, 30⟩),
   ("Flujo_Agua_LPM", ⟨0, 500⟩)]

/-- The `ALERT_THRESHOLDS` dictionary of
src/backend/app/services/alerts_service.py (lines 7-21).
Note `Presion_Alta` has max 50 here. -/
def ALERT_THRESHOLDS_service : List (String × ThresholdRule) :=
  [("Temperatura_Ambiente", ⟨-10, 50⟩),
   ("Irradiancia", ⟨0, 1500⟩),
   ("Velocidad_Viento", ⟨0, 30⟩),
   ("Humedad", ⟨0, 100⟩),
   ("T_ValvulaExpansion", ⟨-50, 50⟩),
   ("T_EntCompresor", ⟨-50, 80⟩),
   ("T_SalCompresor", ⟨-50, 100⟩),
   ("T_SalCondensador", ⟨-50, 80⟩),
   ("T_Entrada_Agua", ⟨-10, 60⟩),
   ("T_Salida_Agua", ⟨-10, 60⟩),
   ("Presion_Alta", ⟨0, 50⟩),
   ("Presion_Baja", ⟨0, 30⟩),
   ("Flujo_Agua_LPM", ⟨0, 500⟩)]

/-- An alert record as assembled by the sweep engine before insertion into
the `alerts` table.  The human-readable `description` string is not
modelled; `value`/`threshold` columns that an INSERT omits are the SQL
NULLs `none`. -/
structure AlertRow where
  facade_id : String
  sensor_name : String
  alert_type : String
  severity : String
  value : Option ℚ
  threshold : Option ℚ
deriving DecidableEq

/-- The severity expression
`"warning" if abs(value - bound) < 5 else "critical"` used at
src/alert_monitor.py lines 89 and 100 and at
src/backend/app/services/alerts_service.py line 156. -/
def boundSeverity (v bound : ℚ) : String :=
  if |v - bound| < 5 then "warning" else "critical"

/-- The `sensor_error` alert built at src/alert_monitor.py lines 69-77. -/
def sensorErrorAlert (row : MeasurementRow) : AlertRow :=
  { facade_id := row.facade_id
    sensor_name := row.sensor_name
    alert_type := "sensor_error"
    severity := "critical"
    value := row.value
    threshold := none }

/-- The threshold branch of the `check_for_anomalies` loop body
(src/alert_monitor.py lines 81-104): consult the threshold table, then
compare against min first and max second. -/
def thresholdAlerts (tbl : List (String × ThresholdRule)) (row : MeasurementRow)
    (v : ℚ) : List AlertRow :=
  match tbl.lookup row.sensor_name with
  | none => []
  | some th =>
    if v < th.min then
      [{ facade_id := row.facade_id
         sensor_name := row.sensor_name
         alert_type := "value_below_threshold"
         severity := boundSeverity v th.min
         value := some v
         threshold := some th.min }]
    else if v > th.max then
      [{ facade_id := row.facade_id
         sensor_name := row.sensor_name
         alert_type := "value_above_threshold"
         severity := boundSeverity v th.max
         value := some v
         threshold := some th.max }]
    else []

/-- One iteration of the `check_for_anomalies` loop
(src/alert_monitor.py lines 61-104): a NULL or negative value yields a
`sensor_error` alert and `continue`s; otherwise the threshold check runs. -/
def rowAlerts (tbl : List (String × ThresholdRule)) (row : MeasurementRow) :
    List AlertRow :=
  match row.value with
  | none => [sensorErrorAlert row]
  | some v => if v < 0 then [sensorErrorAlert row] else thresholdAlerts tbl row v

/-- The SQL window filter `ts >= NOW() - INTERVAL '…'`, with the interval
in seconds. -/
def recentWindow (now seconds : Int) (db : List MeasurementRow) :
    List MeasurementRow :=
  db.filter fun r => decide (now - seconds ≤ r.ts)

/-- The SQL `ORDER BY ts DESC` over a selected row set. -/
def sortByTsDesc (db : List MeasurementRow) : List MeasurementRow :=
  db.mergeSort fun a b => decide (b.ts ≤ a.ts)

/-- `check_for_anomalies` (src/alert_monitor.py lines 36-132): select the
last five minutes of measurements ordered newest first, and run the loop
body over each row, collecting the alerts to insert. -/
def check_for_anomalies (now : Int) (db : List MeasurementRow) : List AlertRow :=
  (sortByTsDesc (recentWindow now 300 db)).flatMap
    (rowAlerts ALERT_THRESHOLDS_monitor)

/-- An anomaly record built by `get_anomalies_by_threshold`
(src/backend/app/services/alerts_service.py lines 158-167). -/
structure Anomaly where
  facade_id : String
  device_id : String
  facade_type : String
  sensor_name : String
  value : ℚ
  expected_range : ThresholdRule
  ts : Int
  severity : String
deriving DecidableEq

/-- One iteration of the `get_anomalies_by_threshold` loop
(src/backend/app/services/alerts_service.py lines 146-167).  The severity
is always computed from the `max` bound (line 156), for below-min
violations as well. -/
def anomalyOfRow (tbl : List (String × ThresholdRule)) (row : MeasurementRow) :
    Option Anomaly :=
  match tbl.lookup row.sensor_name with
  | none => none
  | some th =>
    match row.value with
    | none => none
    | some v =>
      if v < th.min ∨ v > th.max then
        some { facade_id := row.facade_id
               device_id := row.device_id
               facade_type := row.facade_type
               sensor_name := row.sensor_name
               value := v
               expected_range := th
               ts := row.ts
               severity := boundSeverity v th.max }
      else none

/-- The optional-filter idiom `if f: sql += " AND col = $n"`: Python adds
the equality constraint only when the argument is truthy (not `None` and
not the empty string). -/
def matchesFilter (field : MeasurementRow → String) (f : Option String)
    (r : MeasurementRow) : Bool :=
  match f with
  | none => true
  | some s => if s = "" then true else field r = s

/-- `get_anomalies_by_threshold`
(src/backend/app/services/alerts_service.py lines 86-175): select the
recent window with optional facade filters, newest first, limited, then
run the anomaly loop over the selected rows. -/
def get_anomalies_by_threshold (now : Int) (facade_id facade_type : Option String)
    (limit : Nat) (hours : Int) (db : List MeasurementRow) : List Anomaly :=
  let rows := ((sortByTsDesc ((recentWindow now (hours * 3600) db).filter fun r =>
      matchesFilter MeasurementRow.facade_id facade_id r &&
      matchesFilter MeasurementRow.facade_type facade_type r))).take limit
  rows.filterMap (anomalyOfRow ALERT_THRESHOLDS_service)

/-- The distinct `(facade_id, sensor_name)` pairs present in the
`measurements` table, as enumerated by
`SELECT DISTINCT ON (facade_id, sensor_name)` in `check_inactive_sensors`. -/
def pairKeys (db : List MeasurementRow) : List (String × String) :=
  (db.map fun r => (r.facade_id, r.sensor_name)).dedup

/-- The `ts` of the most recent reading for one `(facade_id, sensor_name)`
pair (the `DISTINCT ON … ORDER BY …, ts DESC` row of
src/alert_monitor.py lines 144-149). -/
def latestTs (db : List MeasurementRow) (k : String × String) : Option Int :=
  ((db.filter fun r => decide ((r.facade_id, r.sensor_name) = k)).map
    MeasurementRow.ts).max?

/-- The `sensor_inactive` alert inserted at src/alert_monitor.py
lines 159-174; the INSERT omits the `value` and `threshold` columns, so
they are NULL. -/
def inactiveAlert (f s : String) : AlertRow :=
  { facade_id := f
    sensor_name := s
    alert_type := "sensor_inactive"
    severity := "medium"
    value := none
    threshold := none }

/-- `check_inactive_sensors` (src/alert_monitor.py lines 135-181): for each
distinct pair, flag it when its latest reading is strictly older than ten
minutes (`ts < NOW() - INTERVAL '10 minutes'`). -/
def check_inactive_sensors (now : Int) (db : List MeasurementRow) :
    List AlertRow :=
  (pairKeys db).filterMap fun k =>
    match latestTs db k with
    | none => none
    | some t => if t < now - 600 then some (inactiveAlert k.1 k.2) else none

/-- A stored row of the `alerts` table: the inserted record together with
its `created_at` column (assigned by the database on insertion). -/
structure StoredAlert where
  alert : AlertRow
  created_at : Int
deriving DecidableEq

/-- `cleanup_old_alerts` (src/alert_monitor.py lines 184-201): the table
left after `DELETE FROM alerts WHERE created_at < NOW() - INTERVAL '30 days'`. -/
def cleanup_old_alerts (now : Int) (alerts : List StoredAlert) :
    List StoredAlert :=
  alerts.filter fun a => decide (¬ a.created_at < now - 30 * 86400)

/-- The SQL predicate `value IS NULL OR value < 0` selecting sensor-error
measurements. -/
def invalidValue (r : MeasurementRow) : Bool :=
  match r.value with
  | none => true
  | some v => decide (v < 0)

/-- `get_sensor_errors` (src/backend/app/services/alerts_service.py
lines 24-83): clamp `limit` into [1, 1000] and `hours` into [1, 720], then
select the NULL-or-negative measurements of the window, newest first,
limited. -/
def get_sensor_errors (now : Int) (limit : Int) (facade_type : Option String)
    (hours : Int) (db : List MeasurementRow) : List MeasurementRow :=
  let lim := max 1 (min limit 1000)
  let hrs := max 1 (min hours 720)
  (sortByTsDesc ((recentWindow now (hrs * 3600) db).filter fun r =>
      invalidValue r && matchesFilter MeasurementRow.facade_type facade_type r)).take
    lim.toNat

/-! ### The ingestor (src/ingestor/main.py) -/

/-- A raw JSON value appearing in the `data` mapping of an inbound MQTT
payload (arrays and objects, which Python's `float()` also rejects, are
not modelled). -/
inductive RawValue where
  | num (q : ℚ)
  | str (s : String)
  | bool (b : Bool)
  | null
deriving DecidableEq

/-- Decimal digit value of a character, or `none`. -/
def digitVal (c : Char) : Option Nat :=
  if 48 ≤ c.toNat ∧ c.toNat ≤ 57 then some (c.toNat - 48) else none

/-- Read a digit run as a natural number; fails on a non-digit. -/
def parseNatDigits : List Char → Nat → Option Nat
  | [], acc => some acc
  | c :: rest, acc =>
    match digitVal c with
    | some d => parseNatDigits rest (acc * 10 + d)
    | none => none

/-- Parse an unsigned decimal numeral, optionally with a fractional part
(a simplified model of Python's float-from-string grammar: exponents and
special values are not modelled). -/
def parseUnsignedDecimal (cs : List Char) : Option ℚ :=
  let ip := cs.takeWhile fun c => decide (c ≠ '.')
  let rest := cs.dropWhile fun c => decide (c ≠ '.')
  match rest with
  | [] =>
    match ip with
    | [] => none
    | _ => (parseNatDigits ip 0).map fun n => (n : ℚ)
  | _ :: fp =>
    if ip = [] ∧ fp = [] then none
    else
      match (if ip = [] then some 0 else parseNatDigits ip 0),
            (if fp = [] then some 0 else parseNatDigits fp 0) with
      | some i, some f => some ((i : ℚ) + (f : ℚ) / ((10 : ℚ) ^ fp.length))
      | _, _ => none

/-- Model of Python's `float(value)` numeric coercion used at
src/ingestor/main.py line 93: numbers coerce to themselves, booleans to
0/1, `None` fails (TypeError), strings are parsed as optionally signed
decimal numerals or fail (ValueError). -/
def pyFloat : RawValue → Option ℚ
  | .num q => some q
  | .bool b => some (if b then 1 else 0)
  | .null => none
  | .str s =>
    match s.data with
    | '-' :: rest => (parseUnsignedDecimal rest).map Neg.neg
    | '+' :: rest => parseUnsignedDecimal rest
    | cs => parseUnsignedDecimal cs

/-- An inbound MQTT payload after `json.loads`: the fields
`handle_payload` reads, each `none` when absent from the message body. -/
structure Payload where
  ts : Option String
  facade_id : Option String
  device_id : Option String
  facade_type : Option String
  data : List (String × RawValue)
deriving DecidableEq

/-- One `HSET` field written to the per-facade Redis hash
(src/ingestor/main.py lines 73-84).  The JSON serialization of the entry
is modelled structurally; note the entry embeds the raw, uncoerced
`value`. -/
structure CacheWrite where
  key : String
  field : String
  value : RawValue
  ts : String
  device_id : String
  facade_type : String
deriving DecidableEq

/-- The observable outcome of one `handle_payload` call: whether the
message was discarded by an early return, the cache fields written, whether
the TimescaleDB insert was reached, the rows it durably wrote, and the
exception (if any) propagated to the caller. -/
structure HandleEffects where
  discarded : Bool
  cacheWrites : List CacheWrite
  durableAttempted : Bool
  durableRows : List MeasurementRow
  raised : Option String
deriving DecidableEq

/-- The names bound at module level of src/ingestor/main.py, from its
imported modules (importing `redis.asyncio` under the alias `aioredis`
binds only `aioredis`), top-level assignments and function definitions.
The except clause at line 86 names `redis.exceptions.RedisError`; Python
resolves the root name `redis` against these bindings only when the
clause is reached. -/
def ingestorModuleNames : List String :=
  ["os", "json", "asyncio", "logging", "datetime", "asyncpg", "aioredis",
   "Client", "MqttError", "log", "MQTT_BROKER", "MQTT_PORT", "MQTT_TOPIC",
   "REDIS_URL", "DATABASE_URL", "handle_payload", "main"]

/-- Character-list prefix test (Python string slicing model). -/
def isPrefixOfCh : List Char → List Char → Bool
  | [], _ => true
  | _ :: _, [] => false
  | a :: as, b :: bs => a == b && isPrefixOfCh as bs

/-- Python `s.endswith(post)`. -/
def pyEndsWith (s post : String) : Bool :=
  isPrefixOfCh post.data.reverse s.data.reverse

/-- Python `s.replace("Z", "+00:00")`, the call at src/ingestor/main.py
line 55 with its constant arguments: every occurrence of the one-character
pattern is replaced. -/
def replaceZ : List Char → List Char
  | [] => []
  | c :: rest => (if c = 'Z' then "+00:00".data else [c]) ++ replaceZ rest

/-- The timestamp normalization of src/ingestor/main.py lines 54-55:
`if ts_str.endswith("Z"): ts_str = ts_str.replace("Z", "+00:00")`. -/
def normalizeTs (s : String) : String :=
  if pyEndsWith s "Z" then String.mk (replaceZ s.data) else s

/-- The effects `handle_payload` leaves with no record of an early
return. -/
def noEffects (d : Bool) : HandleEffects :=
  { discarded := d, cacheWrites := [], durableAttempted := false,
    durableRows := [], raised := none }

/-- The body of `handle_payload` past its two early returns
(src/ingestor/main.py lines 72-112), for a message whose timestamp parsed
to `ts_dt` and whose `data` mapping is non-empty: write one cache field
per sensor entry (all or nothing, since the Redis pipeline executes
once); on cache failure the `except redis.exceptions.RedisError` clause is
reached, and because the name `redis` is unbound at module level,
evaluating the clause raises a NameError that propagates, so the durable
insert is never reached; otherwise coerce each entry with `float()`,
storing `none` on coercion failure, and insert all rows transactionally
(on failure the batch is dropped and logged, nothing raises). -/
def processedEffects (utcnowIso : Int → String) (now : Int)
    (cacheFails pgFails : Bool) (payload : Payload) (ts_dt : Int) :
    HandleEffects :=
  let ts_str := normalizeTs (payload.ts.getD (utcnowIso now ++ "Z"))
  let facade_id := payload.facade_id.getD "unknown"
  let device_id := payload.device_id.getD "unknown"
  let facade_type := payload.facade_type.getD "unknown"
  let key := "facade:" ++ facade_id ++ ":latest"
  let cacheWrites :=
    if cacheFails then []
    else payload.data.map fun p =>
      { key := key, field := p.1, value := p.2, ts := ts_str,
        device_id := device_id, facade_type := facade_type : CacheWrite }
  if cacheFails ∧ "redis" ∉ ingestorModuleNames then
    { discarded := false, cacheWrites := cacheWrites,
      durableAttempted := false, durableRows := [],
      raised := some "NameError" }
  else
    { discarded := false, cacheWrites := cacheWrites,
      durableAttempted := true,
      durableRows :=
        if pgFails then []
        else payload.data.map fun p =>
          { facade_id := facade_id, device_id := device_id,
            facade_type := facade_type, sensor_name := p.1,
            value := pyFloat p.2, ts := ts_dt : MeasurementRow },
      raised := none }

/-- `handle_payload` (src/ingestor/main.py lines 33-112).

Parameters standing for external library behavior: `parseTs` is
`datetime.fromisoformat` (returning the parsed instant or `none` for
`ValueError`), `utcnowIso` is `datetime.utcnow().isoformat()` at instant
`now`.  `cacheFails` (resp. `pgFails`) makes the Redis pipeline execution
(resp. the TimescaleDB insert) raise its store error, modelling
connectivity loss.

Control flow, as in the source: parse the timestamp (defaulting the string
to the rendered receipt time plus `"Z"`, then normalizing), returning on
failure; return if the `data` mapping is empty; otherwise run
`processedEffects`. -/
def handle_payload (parseTs : String → Option Int) (utcnowIso : Int → String)
    (now : Int) (cacheFails pgFails : Bool) (payload : Payload) :
    HandleEffects :=
  match parseTs (normalizeTs (payload.ts.getD (utcnowIso now ++ "Z"))) with
  | none => noEffects true
  | some ts_dt =>
    if payload.data = [] then noEffects true
    else processedEffects utcnowIso now cacheFails pgFails payload ts_dt

/-! ### The alert history aggregator (`get_alert_history`) -/

/-- An item of the consolidated alert history feed
(src/backend/app/services/alerts_service.py lines 337-364).  The
`message` string is not modelled; the float rendering inside the `id` is
modelled as the decimal rendering of the epoch second. -/
structure HistAlert where
  id : String
  type : String
  facade_id : String
  facade_type : String
  device_id : String
  sensor_name : String
  severity : String
  created_at : String
deriving DecidableEq

/-- Code-point-wise lexicographic order on character lists: the order
Python uses to compare strings. -/
def lexLe : List Char → List Char → Bool
  | [], _ => true
  | _ :: _, [] => false
  | a :: as, b :: bs =>
    if a.toNat < b.toNat then true
    else if b.toNat < a.toNat then false
    else lexLe as bs

/-- Python's `<=` on strings (code-point lexicographic). -/
def strLe (a b : String) : Bool := lexLe a.data b.data

/-- The history item built from one sensor-error row (lines 337-347). -/
def errorHistAlert (iso : Int → String) (r : MeasurementRow) : HistAlert :=
  { id := "error_" ++ r.device_id ++ "_" ++ toString r.ts
    type := "sensor_error"
    facade_id := r.facade_id
    facade_type := r.facade_type
    device_id := r.device_id
    sensor_name := r.sensor_name
    severity := "critical"
    created_at := iso r.ts }

/-- The history item built from one threshold anomaly (lines 354-364). -/
def anomalyHistAlert (iso : Int → String) (a : Anomaly) : HistAlert :=
  { id := "anomaly_" ++ a.device_id ++ "_" ++ toString a.ts
    type := "threshold_exceeded"
    facade_id := a.facade_id
    facade_type := a.facade_type
    device_id := a.device_id
    sensor_name := a.sensor_name
    severity := a.severity
    created_at := iso a.ts }

/-- The `alerts` list of `get_alert_history` as built before sorting
(lines 315-364): the sensor-error items (selected with no ORDER BY and no
SQL limit) followed by the items of `get_anomalies_by_threshold`.
`iso` stands for `datetime.isoformat`. -/
def historyFeed (iso : Int → String) (now : Int) (limit : Nat)
    (facade_type : Option String) (hours : Int) (db : List MeasurementRow) :
    List HistAlert :=
  ((recentWindow now (hours * 3600) db).filter fun r =>
      invalidValue r && matchesFilter MeasurementRow.facade_type facade_type r).map
    (errorHistAlert iso) ++
  (get_anomalies_by_threshold now none facade_type limit hours db).map
    (anomalyHistAlert iso)

/-- `get_alert_history` (src/backend/app/services/alerts_service.py
lines 278-373): build the feed, sort it descending by the `created_at`
string (`alerts.sort(key=…, reverse=True)`, a stable sort), and truncate
to `limit`. -/
def get_alert_history (iso : Int → String) (now : Int) (limit : Nat)
    (facade_type : Option String) (hours : Int) (db : List MeasurementRow) :
    List HistAlert :=
  ((historyFeed iso now limit facade_type hours db).mergeSort fun a b =>
    strLe b.created_at a.created_at).take limit

/-! ### Concrete instances used by witnesses and counterexamples -/

/-- Concrete stand-in for `datetime.fromisoformat` in closed statements: a
finite table mapping ISO strings to instants, failing elsewhere. -/
def toyParseTs (s : String) : Option Int :=
  if s = "2025-01-01T00:00:00+00:00" then some 1735689600
  else if s = "0+00:00" then some 0
  else if s = "1+00:00" then some 1
  else none

/-- Concrete stand-in for `datetime.utcnow().isoformat()` in closed
statements; what matters is that the two instants used render to distinct
parseable strings. -/
def toyUtcnowIso (n : Int) : String :=
  if n = 0 then "0" else if n = 1 then "1" else "x"

/-- The end-to-end example payload of the spec (§8). -/
def samplePayload : Payload :=
  { ts := some "2025-01-01T00:00:00Z"
    facade_id := some "1"
    device_id := some "d1"
    facade_type := some "no_refrigerada"
    data := [("Irradiancia", RawValue.num 1600)] }

/-- A negative reading of a sensor that does have a threshold rule. -/
def negRow : MeasurementRow :=
  { facade_id := "1", device_id := "d1", facade_type := "refrigerada",
    sensor_name := "Irradiancia", value := some (-1), ts := 0 }

/-- A single reading of facade 1, sensor S at instant `t`. -/
def inactRow (t : Int) : MeasurementRow :=
  { facade_id := "1", device_id := "d1", facade_type := "refrigerada",
    sensor_name := "S", value := some 1, ts := t }

/-- A Temperatura_Ambiente reading of −12: below the rule's min of −10 by
2, far from its max of 50. -/
def c1row : MeasurementRow :=
  { facade_id := "1", device_id := "d1", facade_type := "refrigerada",
    sensor_name := "Temperatura_Ambiente", value := some (-12), ts := 0 }

/-- A Temperatura_Ambiente reading of 53, three above the rule's max of
50. -/
def row53 : MeasurementRow :=
  { facade_id := "1", device_id := "d1", facade_type := "refrigerada",
    sensor_name := "Temperatura_Ambiente", value := some 53, ts := 0 }

/-- A message whose first sensor entry carries the non-numeric string
value abc and whose second carries the number 5. -/
def badValuePayload : Payload :=
  { ts := some "2025-01-01T00:00:00Z"
    facade_id := some "1"
    device_id := some "d1"
    facade_type := some "refrigerada"
    data := [("S", RawValue.str "abc"), ("T", RawValue.num 5)] }

/-- A message whose body omits the `ts` field. -/
def noTsPayload : Payload :=
  { ts := none, facade_id := some "1", device_id := some "d1",
    facade_type := some "refrigerada", data := [("S", RawValue.num 1)] }

/-- Concrete stand-in for `datetime.isoformat` in closed statements,
covering the instants 0, 1 and 2. -/
def toyIso (t : Int) : String :=
  if t = 0 then "2025-01-01T00:00:00"
  else if t = 1 then "2025-01-01T00:00:01"
  else if t = 2 then "2025-01-01T00:00:02"
  else "2025-01-01T00:00:0x"

/-- Three sensor-error readings (NULL values) at instants 0, 1 and 2 of a
sensor with no threshold rule. -/
def histDb : List MeasurementRow :=
  [{ facade_id := "1", device_id := "d1", facade_type := "refrigerada",
     sensor_name := "X", value := none, ts := 0 },
   { facade_id := "1", device_id := "d1", facade_type := "refrigerada",
     sensor_name := "X", value := none, ts := 1 },
   { facade_id := "1", device_id := "d1", facade_type := "refrigerada",
     sensor_name := "X", value := none, ts := 2 }]

/-! ### Helper lemmas -/

theorem boundSeverity_warning {v b : ℚ} (h : |v - b| < 5) :
    boundSeverity v b = "warning" := if_pos h

theorem boundSeverity_critical {v b : ℚ} (h : ¬ |v - b| < 5) :
    boundSeverity v b = "critical" := if_neg h

theorem rowAlerts_of_invalid (tbl : List (String × ThresholdRule))
    {row : MeasurementRow}
    (hbad : row.value = none ∨ ∃ v, row.value = some v ∧ v < 0) :
    rowAlerts tbl row = [sensorErrorAlert row] := by
  rcases hbad with h | ⟨v, hv, hneg⟩
  · simp [rowAlerts, h]
  · simp [rowAlerts, hv, hneg]

theorem handle_payload_processed (parseTs : String → Option Int)
    (utcnowIso : Int → String) (now : Int) (cfa pfa : Bool)
    (payload : Payload) (ts_dt : Int)
    (hp : parseTs (normalizeTs (payload.ts.getD (utcnowIso now ++ "Z"))) =
      some ts_dt)
    (hd : payload.data ≠ []) :
    handle_payload parseTs utcnowIso now cfa pfa payload =
      processedEffects utcnowIso now cfa pfa payload ts_dt := by
  unfold handle_payload
  rw [hp]
  dsimp only
  rw [if_neg hd]

theorem processedEffects_discarded (utcnowIso : Int → String) (now : Int)
    (cfa pfa : Bool) (payload : Payload) (ts_dt : Int) :
    (processedEffects utcnowIso now cfa pfa payload ts_dt).discarded =
      false := by
  unfold processedEffects
  by_cases h : cfa = true ∧ "redis" ∉ ingestorModuleNames
  · rw [if_pos h]
  · rw [if_neg h]

/-! ### C2 -/

/-- C2: the claim says a cache-write failure never blocks the durable
write of the same message.  The code intends this (the Redis pipeline is
wrapped in `try`/`except redis.exceptions.RedisError` with a log), but the
module binds only `redis.asyncio` as `aioredis`, so the name `redis` in the
except clause is unbound: when the cache write fails, evaluating the clause
raises a NameError that propagates and the TimescaleDB insert is never
reached.  The reverse direction does hold: a durable-write failure leaves
the already-executed cache write untouched and raises nothing. -/
theorem C2_cache_failure_blocks_durable :
    ("redis" ∉ ingestorModuleNames) ∧
    ((handle_payload toyParseTs toyUtcnowIso 0 true false samplePayload).raised
        = some "NameError" ∧
     (handle_payload toyParseTs toyUtcnowIso 0 true false samplePayload).durableAttempted
        = false ∧
     (handle_payload toyParseTs toyUtcnowIso 0 true false samplePayload).durableRows
        = []) ∧
    ((handle_payload toyParseTs toyUtcnowIso 0 false true samplePayload).cacheWrites
        ≠ [] ∧
     (handle_payload toyParseTs toyUtcnowIso 0 false true samplePayload).raised
        = none) := by
  decide

/-! ### C3 -/

/-- C3: every measurement of the sweep window whose value is NULL or
negative yields, in the `check_for_anomalies` loop, exactly the one
`sensor_error` alert — severity `critical`, `threshold` NULL — whatever the
threshold table says for that sensor, and the threshold branch never runs
for it; that alert is among the alerts of the sweep. -/
theorem C3_invalid_value_sensor_error (now : Int) (db : List MeasurementRow)
    (tbl : List (String × ThresholdRule)) (row : MeasurementRow)
    (hmem : row ∈ recentWindow now 300 db)
    (hbad : row.value = none ∨ ∃ v, row.value = some v ∧ v < 0) :
    rowAlerts tbl row = [sensorErrorAlert row] ∧
    (sensorErrorAlert row).alert_type = "sensor_error" ∧
    (sensorErrorAlert row).severity = "critical" ∧
    (sensorErrorAlert row).threshold = none ∧
    sensorErrorAlert row ∈ check_for_anomalies now db := by
  refine ⟨rowAlerts_of_invalid tbl hbad, rfl, rfl, rfl, ?_⟩
  have h2 : row ∈ sortByTsDesc (recentWindow now 300 db) := by
    simpa [sortByTsDesc, List.mem_mergeSort] using hmem
  exact List.mem_flatMap.mpr
    ⟨row, h2, by
      rw [rowAlerts_of_invalid ALERT_THRESHOLDS_monitor hbad]
      exact List.mem_singleton.mpr rfl⟩

theorem C3_invalid_value_sensor_error_witness :
    rowAlerts ALERT_THRESHOLDS_monitor negRow = [sensorErrorAlert negRow] ∧
    (sensorErrorAlert negRow).alert_type = "sensor_error" ∧
    (sensorErrorAlert negRow).severity = "critical" ∧
    (sensorErrorAlert negRow).threshold = none ∧
    sensorErrorAlert negRow ∈ check_for_anomalies 0 [negRow] := by
  exact C3_invalid_value_sensor_error 0 [negRow] ALERT_THRESHOLDS_monitor negRow
    (by decide) (Or.inr ⟨-1, rfl, by decide⟩)

/-! ### C6 -/

/-- C6: for a `(facade_id, sensor_name)` pair whose most recent reading is
at instant `t`, the sweep's inactivity check emits the `sensor_inactive`
alert — severity `medium`, no value, no threshold — exactly when `t` is
strictly older than ten minutes before now. -/
theorem C6_inactivity (now : Int) (db : List MeasurementRow) (f s : String)
    (t : Int) (hlatest : latestTs db (f, s) = some t) :
    (inactiveAlert f s ∈ check_inactive_sensors now db ↔ t < now - 600) ∧
    (inactiveAlert f s).alert_type = "sensor_inactive" ∧
    (inactiveAlert f s).severity = "medium" ∧
    (inactiveAlert f s).value = none ∧
    (inactiveAlert f s).threshold = none := by
  refine ⟨⟨?_, ?_⟩, rfl, rfl, rfl, rfl⟩
  · intro hmem
    rcases List.mem_filterMap.mp hmem with ⟨k, _, hmatch⟩
    rcases hlt : latestTs db k with _ | t'
    · rw [hlt] at hmatch
      exact absurd hmatch (by simp)
    · rw [hlt] at hmatch
      dsimp only at hmatch
      by_cases hc : t' < now - 600
      · rw [if_pos hc] at hmatch
        have halert : inactiveAlert k.1 k.2 = inactiveAlert f s :=
          Option.some.inj hmatch
        have hk1 : k.1 = f := congrArg AlertRow.facade_id halert
        have hk2 : k.2 = s := congrArg AlertRow.sensor_name halert
        have hkeq : k = (f, s) := Prod.ext hk1 hk2
        rw [hkeq] at hlt
        rw [hlatest] at hlt
        cases Option.some.inj hlt
        exact hc
      · rw [if_neg hc] at hmatch
        cases hmatch
  · intro hc
    have hne : db.filter (fun r => decide ((r.facade_id, r.sensor_name) = (f, s)))
        ≠ [] := by
      intro hfe
      rw [latestTs, hfe] at hlatest
      cases hlatest
    rcases List.exists_mem_of_ne_nil _ hne with ⟨r, hr⟩
    have hrdb := (List.mem_filter.mp hr).1
    have hrkey : (r.facade_id, r.sensor_name) = (f, s) :=
      of_decide_eq_true (List.mem_filter.mp hr).2
    have hkmem : (f, s) ∈ pairKeys db :=
      List.mem_dedup.mpr (List.mem_map.mpr ⟨r, hrdb, hrkey⟩)
    refine List.mem_filterMap.mpr ⟨(f, s), hkmem, ?_⟩
    rw [hlatest]
    dsimp only
    rw [if_pos hc]

/-- With now = 1000: a last reading at 399 (ten minutes and one second
ago) is flagged inactive; one at 460 (nine minutes ago) is not. -/
theorem C6_inactivity_witness :
    (inactiveAlert "1" "S" ∈ check_inactive_sensors 1000 [inactRow 399]) ∧
    ¬ inactiveAlert "1" "S" ∈ check_inactive_sensors 1000 [inactRow 460] := by
  constructor
  · exact (C6_inactivity 1000 [inactRow 399] "1" "S" 399 (by decide)).1.mpr
      (by decide)
  · intro h
    exact absurd
      ((C6_inactivity 1000 [inactRow 460] "1" "S" 460 (by decide)).1.mp h)
      (by decide)

/-! ### C8 -/

/-- C8: retention pruning removes exactly the alert rows whose
`created_at` is strictly older than 30 days, keeping every younger row; in
particular of a 31-day-old and a 29-day-old alert, only the latter
survives. -/
theorem C8_retention (now : Int) (alerts : List StoredAlert) :
    (∀ a : StoredAlert, a ∈ cleanup_old_alerts now alerts ↔
        a ∈ alerts ∧ ¬ a.created_at < now - 30 * 86400) ∧
    (∀ x : AlertRow,
        cleanup_old_alerts now
            [⟨x, now - 31 * 86400⟩, ⟨x, now - 29 * 86400⟩] =
          [⟨x, now - 29 * 86400⟩]) := by
  constructor
  · intro a
    simp [cleanup_old_alerts, List.mem_filter]
  · intro x
    have h1 : (decide (¬ (now - 31 * 86400 < now - 30 * 86400))) = false := by
      simp only [decide_eq_false_iff_not, not_not]
      omega
    have h2 : (decide (¬ (now - 29 * 86400 < now - 30 * 86400))) = true := by
      simp only [decide_eq_true_eq]
      omega
    simp [cleanup_old_alerts, List.filter, h1, h2]

/-! ### C10 -/

/-- C10: `get_sensor_errors` silently clamps its arguments — the effective
limit lies in [1, 1000] and the effective hours in [1, 720], the call with
raw arguments equals the call with clamped ones, and the result never
holds more than 1000 rows. -/
theorem C10_sensor_errors_clamped (now limit hours : Int) (ft : Option String)
    (db : List MeasurementRow) :
    1 ≤ max 1 (min limit 1000) ∧ max 1 (min limit 1000) ≤ 1000 ∧
    1 ≤ max 1 (min hours 720) ∧ max 1 (min hours 720) ≤ 720 ∧
    get_sensor_errors now limit ft hours db =
      get_sensor_errors now (max 1 (min limit 1000)) ft
        (max 1 (min hours 720)) db ∧
    (get_sensor_errors now limit ft hours db).length ≤ 1000 := by
  have hl1 : (1 : Int) ≤ max 1 (min limit 1000) := le_max_left 1 _
  have hl2 : max 1 (min limit 1000) ≤ 1000 := by omega
  have hh1 : (1 : Int) ≤ max 1 (min hours 720) := le_max_left 1 _
  have hh2 : max 1 (min hours 720) ≤ 720 := by omega
  have hidl : max 1 (min (max 1 (min limit 1000)) 1000) = max 1 (min limit 1000) := by
    omega
  have hidh : max 1 (min (max 1 (min hours 720)) 720) = max 1 (min hours 720) := by
    omega
  refine ⟨hl1, hl2, hh1, hh2, ?_, ?_⟩
  · simp only [get_sensor_errors, hidl, hidh]
  · calc (get_sensor_errors now limit ft hours db).length
        ≤ (max 1 (min limit 1000)).toNat := by
          simp only [get_sensor_errors]
          exact List.length_take_le _ _
      _ ≤ 1000 := by omega

/-! ### C1 -/

unseal List.merge List.mergeSort in
/-- C1 fails on the aggregator: for the reading −12 of a sensor with rule
min −10 / max 50, the violated bound is the min, so the claim's severity is
`warning` (|−12 − (−10)| = 2 < 5); but `get_anomalies_by_threshold`
computes severity from the distance to max and yields `critical`. -/
theorem C1_counterexample :
    List.lookup "Temperatura_Ambiente" ALERT_THRESHOLDS_service =
      some ⟨-10, 50⟩ ∧
    ((-12 : ℚ) < -10) ∧
    boundSeverity (-12) (-10) = "warning" ∧
    (get_anomalies_by_threshold 0 none none 100 24 [c1row]).map
      Anomaly.severity = ["critical"] := by
  refine ⟨by decide, by decide, boundSeverity_warning (by norm_num), ?_⟩
  have heq : get_anomalies_by_threshold 0 none none 100 24 [c1row] =
      [{ facade_id := "1", device_id := "d1", facade_type := "refrigerada",
         sensor_name := "Temperatura_Ambiente", value := -12,
         expected_range := ⟨-10, 50⟩, ts := 0,
         severity := boundSeverity (-12) 50 }] := rfl
  rw [heq, List.map_singleton]
  rw [boundSeverity_critical (show ¬ |(-12 : ℚ) - 50| < 5 by norm_num)]

/-- C1 amended: in the sweep engine's per-row check the severity is
`warning` iff the value is within 5 of the violated bound (the min for a
below violation, the max for an above violation); the on-demand
aggregator instead always measures the distance to the rule's max, which
agrees with the claim for above-max violations but not for below-min
ones.  With max = 50: 53 → warning, 55 → critical, 60 → critical. -/
theorem C1_severity_amended :
    (∀ (tbl : List (String × ThresholdRule)) (row : MeasurementRow) (v : ℚ)
        (th : ThresholdRule), row.value = some v → ¬ v < 0 →
        tbl.lookup row.sensor_name = some th →
        (v < th.min →
          (rowAlerts tbl row).map AlertRow.alert_type =
            ["value_below_threshold"] ∧
          (rowAlerts tbl row).map AlertRow.severity =
            [boundSeverity v th.min]) ∧
        (¬ v < th.min → v > th.max →
          (rowAlerts tbl row).map AlertRow.alert_type =
            ["value_above_threshold"] ∧
          (rowAlerts tbl row).map AlertRow.severity =
            [boundSeverity v th.max])) ∧
    (∀ (tbl : List (String × ThresholdRule)) (row : MeasurementRow)
        (th : ThresholdRule) (a : Anomaly),
        tbl.lookup row.sensor_name = some th →
        anomalyOfRow tbl row = some a →
        a.severity = boundSeverity a.value th.max) ∧
    (boundSeverity 53 50 = "warning" ∧ boundSeverity 55 50 = "critical" ∧
     boundSeverity 60 50 = "critical") := by
  refine ⟨?_, ?_, boundSeverity_warning (by norm_num),
    boundSeverity_critical (by norm_num),
    boundSeverity_critical (by norm_num)⟩
  · intro tbl row v th hv hneg hth
    constructor
    · intro hlt
      simp [rowAlerts, hv, hneg, thresholdAlerts, hth, hlt]
    · intro hnlt hgt
      simp [rowAlerts, hv, hneg, thresholdAlerts, hth, hnlt, hgt]
  · intro tbl row th a hth ha
    rw [anomalyOfRow, hth] at ha
    dsimp only at ha
    rcases hval : row.value with _ | v
    · rw [hval] at ha
      cases ha
    · rw [hval] at ha
      dsimp only at ha
      by_cases hcond : v < th.min ∨ v > th.max
      · rw [if_pos hcond] at ha
        cases Option.some.inj ha
        rfl
      · rw [if_neg hcond] at ha
        cases ha

theorem C1_severity_amended_witness :
    (rowAlerts ALERT_THRESHOLDS_monitor row53).map AlertRow.severity =
      [boundSeverity 53 50] ∧ boundSeverity 53 50 = "warning" :=
  ⟨((C1_severity_amended.1 ALERT_THRESHOLDS_monitor row53 53 ⟨-10, 50⟩ rfl
      (by decide) (by decide)).2 (by decide) (by decide)).2,
   C1_severity_amended.2.2.1⟩

/-! ### C4 -/

/-- C4: `handle_payload` discards the whole message — writing to neither
store and returning to its caller without raising — exactly when the
(normalized) timestamp string fails to parse or the sensor mapping is
empty or absent; any other message yields one durable measurement per
sensor entry. -/
theorem C4_message_level_failure (parseTs : String → Option Int)
    (utcnowIso : Int → String) (now : Int) (cf pf : Bool) (payload : Payload) :
    ((handle_payload parseTs utcnowIso now cf pf payload).discarded = true ↔
      parseTs (normalizeTs (payload.ts.getD (utcnowIso now ++ "Z"))) = none ∨
      payload.data = []) ∧
    ((handle_payload parseTs utcnowIso now cf pf payload).discarded = true →
      handle_payload parseTs utcnowIso now cf pf payload = noEffects true) ∧
    (∀ ts_dt : Int,
      parseTs (normalizeTs (payload.ts.getD (utcnowIso now ++ "Z"))) =
        some ts_dt →
      payload.data ≠ [] →
      (handle_payload parseTs utcnowIso now false false payload).durableRows.length
        = payload.data.length) := by
  rcases hp : parseTs (normalizeTs (payload.ts.getD (utcnowIso now ++ "Z")))
    with _ | ts_dt
  · refine ⟨?_, ?_, ?_⟩
    · simp [handle_payload, hp, noEffects]
    · intro _
      simp [handle_payload, hp]
    · intro t ht
      exact absurd ht (by simp)
  · by_cases hd : payload.data = []
    · refine ⟨?_, ?_, ?_⟩
      · simp [handle_payload, hp, hd, noEffects]
      · intro _
        simp [handle_payload, hp, hd]
      · intro t _ hne
        exact absurd hd hne
    · have h1 := handle_payload_processed parseTs utcnowIso now cf pf payload
        ts_dt hp hd
      have h2 := handle_payload_processed parseTs utcnowIso now false false
        payload ts_dt hp hd
      refine ⟨?_, ?_, ?_⟩
      · rw [h1, processedEffects_discarded]
        simp [hd]
      · intro h
        rw [h1, processedEffects_discarded] at h
        cases h
      · intro t ht hne
        cases Option.some.inj ht
        rw [h2]
        unfold processedEffects
        rw [if_neg (by simp)]
        simp

/-- A payload with a parseable timestamp and one sensor entry, decoded
with the toy parser: not discarded, one durable row. -/
theorem C4_message_level_failure_witness :
    ((handle_payload toyParseTs toyUtcnowIso 0 false false samplePayload).discarded
        = true ↔
      toyParseTs (normalizeTs ((samplePayload.ts).getD (toyUtcnowIso 0 ++ "Z")))
        = none ∨ samplePayload.data = []) ∧
    (handle_payload toyParseTs toyUtcnowIso 0 false false samplePayload).durableRows.length
        = samplePayload.data.length := by
  refine ⟨(C4_message_level_failure toyParseTs toyUtcnowIso 0 false false
    samplePayload).1, ?_⟩
  exact (C4_message_level_failure toyParseTs toyUtcnowIso 0 false false
    samplePayload).2.2 1735689600 (by decide) (by decide)

/-! ### C5 -/

/-- C5 fails on the cache half of the claim: when numeric coercion of an
entry's raw value fails, the durable store does get NULL and the remaining
entries are processed, but the cache write for that entry stores the raw
value as received (the string abc), not null. -/
theorem C5_counterexample :
    pyFloat (RawValue.str "abc") = none ∧
    (handle_payload toyParseTs toyUtcnowIso 0 false false badValuePayload).durableRows.map
        MeasurementRow.value = [none, some 5] ∧
    (handle_payload toyParseTs toyUtcnowIso 0 false false badValuePayload).cacheWrites.map
        CacheWrite.value = [RawValue.str "abc", RawValue.num 5] ∧
    RawValue.str "abc" ≠ RawValue.null := by
  decide

/-- C5 amended: for every decodable, non-empty message handled with both
stores up, each sensor entry yields one durable row whose value is the
`float()` coercion of its raw value (NULL exactly on coercion failure),
all entries of the message are processed, and the cache write for each
entry embeds the raw value unmodified. -/
theorem C5_coercion_null_amended (parseTs : String → Option Int)
    (utcnowIso : Int → String) (now ts_dt : Int) (payload : Payload)
    (hts : parseTs (normalizeTs (payload.ts.getD (utcnowIso now ++ "Z"))) =
      some ts_dt)
    (hdata : payload.data ≠ []) :
    (handle_payload parseTs utcnowIso now false false payload).durableRows.map
        (fun r => (r.sensor_name, r.value)) =
      payload.data.map (fun p => (p.1, pyFloat p.2)) ∧
    (handle_payload parseTs utcnowIso now false false payload).cacheWrites.map
        (fun c => (c.field, c.value)) = payload.data ∧
    (handle_payload parseTs utcnowIso now false false payload).discarded =
      false := by
  rw [handle_payload_processed parseTs utcnowIso now false false payload ts_dt
    hts hdata]
  refine ⟨?_, ?_, processedEffects_discarded ..⟩
  · unfold processedEffects
    rw [if_neg (by simp)]
    simp
  · unfold processedEffects
    rw [if_neg (by simp)]
    simp [List.map_map]
    exact List.map_id payload.data

theorem C5_coercion_null_amended_witness :
    (handle_payload toyParseTs toyUtcnowIso 0 false false badValuePayload).durableRows.map
        (fun r => (r.sensor_name, r.value)) =
      badValuePayload.data.map (fun p => (p.1, pyFloat p.2)) ∧
    (handle_payload toyParseTs toyUtcnowIso 0 false false badValuePayload).cacheWrites.map
        (fun c => (c.field, c.value)) = badValuePayload.data ∧
    (handle_payload toyParseTs toyUtcnowIso 0 false false badValuePayload).discarded
      = false :=
  C5_coercion_null_amended toyParseTs toyUtcnowIso 0 1735689600 badValuePayload
    (by decide) (by decide)

/-! ### C9 -/

/-- C9 fails for messages omitting `ts`: the decoder defaults the
timestamp to the receipt time, so decoding the same raw message at two
different instants yields different measurement sets. -/
theorem C9_counterexample :
    noTsPayload.ts = none ∧
    (handle_payload toyParseTs toyUtcnowIso 0 false false noTsPayload).durableRows
      ≠
    (handle_payload toyParseTs toyUtcnowIso 1 false false noTsPayload).durableRows := by
  decide

/-- C9 amended: the decoder is a deterministic function of the raw message
and the receipt clock; for every message that carries a `ts` field, the
receipt time is irrelevant and decoding is a function of the message
alone. -/
theorem C9_decode_deterministic_with_ts (parseTs : String → Option Int)
    (utcnowIso : Int → String) (n1 n2 : Int) (cf pf : Bool)
    (payload : Payload) (s : String) (h : payload.ts = some s) :
    handle_payload parseTs utcnowIso n1 cf pf payload =
      handle_payload parseTs utcnowIso n2 cf pf payload := by
  have hpe : ∀ t : Int, processedEffects utcnowIso n1 cf pf payload t =
      processedEffects utcnowIso n2 cf pf payload t := by
    intro t
    simp only [processedEffects, h, Option.getD_some]
  simp only [handle_payload, h, Option.getD_some]
  rcases parseTs (normalizeTs s) with _ | t
  · rfl
  · dsimp only
    rw [hpe t]

theorem C9_decode_deterministic_with_ts_witness :
    handle_payload toyParseTs toyUtcnowIso 0 false false samplePayload =
      handle_payload toyParseTs toyUtcnowIso 5 false false samplePayload :=
  C9_decode_deterministic_with_ts toyParseTs toyUtcnowIso 0 5 false false
    samplePayload "2025-01-01T00:00:00Z" rfl

/-! ### C7 -/

theorem lexLe_total (as bs : List Char) : (lexLe as bs || lexLe bs as) = true := by
  induction as generalizing bs with
  | nil => simp [lexLe]
  | cons a as ih =>
    cases bs with
    | nil => simp [lexLe]
    | cons b bs =>
      by_cases h1 : a.toNat < b.toNat
      · simp [lexLe, h1]
      · by_cases h2 : b.toNat < a.toNat
        · simp [lexLe, h1, h2]
        · simp [lexLe, h1, h2, ih bs]

theorem lexLe_trans : ∀ {as bs cs : List Char}, lexLe as bs = true →
    lexLe bs cs = true → lexLe as cs = true := by
  intro as
  induction as with
  | nil =>
    intro bs cs h1 h2
    simp [lexLe]
  | cons a as ih =>
    intro bs cs h1 h2
    cases bs with
    | nil => simp [lexLe] at h1
    | cons b bs =>
      cases cs with
      | nil => simp [lexLe] at h2
      | cons c cs =>
        simp only [lexLe] at h1 h2 ⊢
        by_cases hab : a.toNat < b.toNat
        · rw [if_pos hab] at h1
          by_cases hbc : b.toNat < c.toNat
          · rw [if_pos (show a.toNat < c.toNat by omega)]
          · by_cases hcb : c.toNat < b.toNat
            · rw [if_neg hbc, if_pos hcb] at h2
              exact absurd h2 (by simp)
            · rw [if_pos (show a.toNat < c.toNat by omega)]
        · by_cases hba : b.toNat < a.toNat
          · rw [if_neg hab, if_pos hba] at h1
            exact absurd h1 (by simp)
          · rw [if_neg hab, if_neg hba] at h1
            by_cases hbc : b.toNat < c.toNat
            · rw [if_pos (show a.toNat < c.toNat by omega)]
            · by_cases hcb : c.toNat < b.toNat
              · rw [if_neg hbc, if_pos hcb] at h2
                exact absurd h2 (by simp)
              · rw [if_neg hbc, if_neg hcb] at h2
                rw [if_neg (show ¬ a.toNat < c.toNat by omega),
                  if_neg (show ¬ c.toNat < a.toNat by omega)]
                exact ih h1 h2

theorem strLe_total (a b : String) : (strLe a b || strLe b a) = true :=
  lexLe_total a.data b.data

theorem strLe_trans {a b c : String} (h1 : strLe a b = true)
    (h2 : strLe b c = true) : strLe a c = true :=
  lexLe_trans h1 h2

unseal List.merge List.mergeSort in
/-- C7: the aggregated history feed is sorted in descending
(Python-string) order of `created_at`, truncated to the requested limit,
and draws only from the merged error/threshold feed; concretely, three
alerts created at instants 0, 1, 2 come back newest first, and with
limit 2 only the two newest come back. -/
theorem C7_history_sorted_truncated :
    (∀ (iso : Int → String) (now : Int) (limit : Nat) (ft : Option String)
        (hours : Int) (db : List MeasurementRow),
        (get_alert_history iso now limit ft hours db).Pairwise
          (fun a b => strLe b.created_at a.created_at = true) ∧
        (get_alert_history iso now limit ft hours db).length =
          min limit (historyFeed iso now limit ft hours db).length ∧
        ∀ a ∈ get_alert_history iso now limit ft hours db,
          a ∈ historyFeed iso now limit ft hours db) ∧
    ((get_alert_history toyIso 0 3 none 1 histDb).map HistAlert.created_at =
        ["2025-01-01T00:00:02", "2025-01-01T00:00:01",
         "2025-01-01T00:00:00"] ∧
     (get_alert_history toyIso 0 2 none 1 histDb).map HistAlert.created_at =
        ["2025-01-01T00:00:02", "2025-01-01T00:00:01"]) := by
  refine ⟨?_, rfl, rfl⟩
  intro iso now limit ft hours db
  have hs := @List.sorted_mergeSort HistAlert
    (fun a b => strLe b.created_at a.created_at)
    (fun a b c hab hbc => strLe_trans hbc hab)
    (fun a b => strLe_total b.created_at a.created_at)
    (historyFeed iso now limit ft hours db)
  refine ⟨?_, ?_, ?_⟩
  · exact List.Pairwise.sublist (List.take_sublist _ _) hs
  · simp [get_alert_history, List.length_take, List.length_mergeSort]
  · intro a ha
    exact List.mem_mergeSort.mp (List.take_subset _ _ ha)

end BICPV
